import Mathlib

/-!
Verification of the StrikeRadar poll-diff-notify loop (`bot.py`).

The job `check_risk_job` fetches a JSON document, extracts
`data["total_risk"]["risk"]`, compares it with the stored baseline
`state["last_risk"]`, and on a change formats and sends a Telegram message,
then overwrites the baseline.  We embed the document shallowly: each JSON
key that the code reads becomes an `Option` field (present or absent), the
risk value is an integer, and the outcome of one job run records the new
state, the messages whose send was attempted, the messages actually
delivered, and whether an uncaught exception escaped the job body.
-/

/-- A JSON sub-object such as `pentagon`, `polymarket`, `flight`, `tankers`
or `weather`: it may or may not carry a `"detail"` field. -/
structure SubObj where
  detail : Option String
  deriving DecidableEq, Repr

/-- The `"total_risk"` sub-object; its `"risk"` field may be absent
(the code indexes it without a guard, so absence raises `KeyError`). -/
structure TotalRisk where
  risk : Option Int
  deriving DecidableEq, Repr

/-- A fetched JSON document.  Each field models presence of the
corresponding key.  An absent `total_risk` also covers the falsy/empty
document, which the guard `not data or "total_risk" not in data` skips
identically. -/
structure Doc where
  total_risk : Option TotalRisk
  pentagon : Option SubObj
  polymarket : Option SubObj
  flight : Option SubObj
  tankers : Option SubObj
  weather : Option SubObj
  deriving DecidableEq, Repr

/-- The module-level `state = {"last_risk": None}`. -/
structure MonitorState where
  last_risk : Option Int
  deriving DecidableEq, Repr

/-- Python's `f"{diff:+}"`: always-signed rendering of an integer. -/
def pySigned (d : Int) : String :=
  if d < 0 then toString d else "+" ++ toString d

/-- `data.get(key, {}).get("detail", "N/A")`: the detail text when the
sub-object and its `"detail"` field are present, `"N/A"` otherwise. -/
def detailOf : Option SubObj → String
  | none => "N/A"
  | some o => o.detail.getD "N/A"

/-- The message built at lines 81–91 of `bot.py` (right-nested so each
fragment is addressable in containment proofs; the value is the same
concatenation the f-string performs). -/
def formatMessage (current_risk last_risk : Int) (d : Doc) : String :=
  "🚨 *Risk Level Update*\n\nCurrent Level: `" ++
  (toString current_risk ++
  ("` " ++
  ((if current_risk > last_risk then "🔺" else "🔻") ++
  (" (" ++
  (pySigned (current_risk - last_risk) ++
  (")\nPrevious Level: `" ++
  (toString last_risk ++
  ("`\n\n📊 *Quick Stats:*\n🍕 *Pentagon Pizza Meter*: " ++
  (detailOf d.pentagon ++
  ("\n📊 *Polymarket*: " ++
  (detailOf d.polymarket ++
  ("\n✈️ *Flights*: " ++
  (detailOf d.flight ++
  ("\n🛢️ *Tankers*: " ++
  (detailOf d.tankers ++
  ("\n🌤️ *Weather*: " ++
  (detailOf d.weather ++ "\n")))))))))))))))))

/-- Outcome of one run of the job body. -/
structure CycleOutcome where
  state : MonitorState
  attempts : List String
  delivered : List String
  raised : Bool
  deriving DecidableEq, Repr

/-- One run of `check_risk_job` (lines 53–100 of `bot.py`).
`data = none` models `fetch_risk_data()` returning `None`; `sendOk`
models whether `context.bot.send_message` succeeds (its failure is
caught and logged).  A present `total_risk` lacking `"risk"` raises an
uncaught `KeyError` before any state change or send. -/
def check_risk_job (data : Option Doc) (sendOk : Bool) (s : MonitorState) :
    CycleOutcome :=
  match data with
  | none => ⟨s, [], [], false⟩
  | some d =>
    match d.total_risk with
    | none => ⟨s, [], [], false⟩
    | some tr =>
      match tr.risk with
      | none => ⟨s, [], [], true⟩
      | some current_risk =>
        match s.last_risk with
        | none => ⟨⟨some current_risk⟩, [], [], false⟩
        | some last_risk =>
          if current_risk = last_risk then ⟨s, [], [], false⟩
          else
            let message := formatMessage current_risk last_risk d
            ⟨⟨some current_risk⟩, [message],
              if sendOk then [message] else [], false⟩

/-- The reading a cycle observes: `data["total_risk"]["risk"]` when every
step of the extraction succeeds. -/
def extractReading : Option Doc → Option Int
  | none => none
  | some d =>
    match d.total_risk with
    | none => none
    | some tr => tr.risk

/-- The per-cycle environment: the fetch result and whether the send
would succeed. -/
structure CycleInput where
  fetch : Option Doc
  sendOk : Bool
  deriving DecidableEq, Repr

/-- The state after one cycle. -/
def stepState (s : MonitorState) (i : CycleInput) : MonitorState :=
  (check_risk_job i.fetch i.sendOk s).state

/-- The state after a sequence of cycles within one process lifetime. -/
def runTrace (s : MonitorState) (inputs : List CycleInput) : MonitorState :=
  inputs.foldl stepState s

/-- The readings successfully observed along a trace, in order. -/
def observedOf (inputs : List CycleInput) : List Int :=
  inputs.filterMap (fun i => extractReading i.fetch)

/-- The last element of a list, or a default when the list is empty. -/
def lastOr (l : List Int) (dflt : Option Int) : Option Int :=
  match l with
  | [] => dflt
  | r :: rest => lastOr rest (some r)

/-! ### Substring machinery -/

/-- `isSubAt sub l`: `sub` occurs at the head of `l`. -/
def isSubAt : List Char → List Char → Bool
  | [], _ => true
  | _ :: _, [] => false
  | a :: as, b :: bs => a == b && isSubAt as bs

/-- `hasSub sub l`: `sub` occurs somewhere in `l`. -/
def hasSub : List Char → List Char → Bool
  | sub, [] => isSubAt sub []
  | sub, b :: bs => isSubAt sub (b :: bs) || hasSub sub bs

/-- `containsSub s sub`: `sub` is a contiguous substring of `s`. -/
def containsSub (s sub : String) : Bool :=
  hasSub sub.data s.data

lemma isSubAt_self_app (sub rest : List Char) :
    isSubAt sub (sub ++ rest) = true := by
  induction sub with
  | nil => rfl
  | cons a as ih => simp [isSubAt, ih]

lemma hasSub_of_at (sub l : List Char) (h : isSubAt sub l = true) :
    hasSub sub l = true := by
  cases l with
  | nil => exact h
  | cons b bs => simp [hasSub, h]

lemma hasSub_cons (sub : List Char) (b : Char) (bs : List Char)
    (h : hasSub sub bs = true) : hasSub sub (b :: bs) = true := by
  simp [hasSub, h]

lemma hasSub_app_right (a b sub : List Char) (h : hasSub sub b = true) :
    hasSub sub (a ++ b) = true := by
  induction a with
  | nil => exact h
  | cons x xs ih => exact hasSub_cons sub x (xs ++ b) ih

lemma containsSub_of_right (a b sub : String)
    (h : containsSub b sub = true) : containsSub (a ++ b) sub = true := by
  have hd : (a ++ b).data = a.data ++ b.data := rfl
  unfold containsSub
  rw [hd]
  exact hasSub_app_right a.data b.data sub.data h

lemma containsSub_found (sub rest : String) :
    containsSub (sub ++ rest) sub = true := by
  have hd : (sub ++ rest).data = sub.data ++ rest.data := rfl
  unfold containsSub
  rw [hd]
  exact hasSub_of_at _ _ (isSubAt_self_app sub.data rest.data)

/-! ### Containment facts about the formatted message -/

lemma formatMessage_parts (c l : Int) (d : Doc) :
    containsSub (formatMessage c l d) (toString c) = true ∧
    containsSub (formatMessage c l d) (toString l) = true ∧
    containsSub (formatMessage c l d) (pySigned (c - l)) = true ∧
    (c > l → containsSub (formatMessage c l d) "🔺" = true) ∧
    (c < l → containsSub (formatMessage c l d) "🔻" = true) ∧
    containsSub (formatMessage c l d) (detailOf d.pentagon) = true ∧
    containsSub (formatMessage c l d) (detailOf d.polymarket) = true ∧
    containsSub (formatMessage c l d) (detailOf d.flight) = true ∧
    containsSub (formatMessage c l d) (detailOf d.tankers) = true ∧
    containsSub (formatMessage c l d) (detailOf d.weather) = true := by
  unfold formatMessage
  refine ⟨?_, ?_, ?_, ?_, ?_, ?_, ?_, ?_, ?_, ?_⟩
  · repeat (first | exact containsSub_found _ _ | apply containsSub_of_right)
  · repeat (first | exact containsSub_found _ _ | apply containsSub_of_right)
  · repeat (first | exact containsSub_found _ _ | apply containsSub_of_right)
  · intro h
    rw [if_pos h]
    repeat (first | exact containsSub_found _ _ | apply containsSub_of_right)
  · intro h
    rw [if_neg (not_lt.mpr (le_of_lt h))]
    repeat (first | exact containsSub_found _ _ | apply containsSub_of_right)
  · repeat (first | exact containsSub_found _ _ | apply containsSub_of_right)
  · repeat (first | exact containsSub_found _ _ | apply containsSub_of_right)
  · repeat (first | exact containsSub_found _ _ | apply containsSub_of_right)
  · repeat (first | exact containsSub_found _ _ | apply containsSub_of_right)
  · repeat (first | exact containsSub_found _ _ | apply containsSub_of_right)

/-! ### Helper lemmas about one cycle -/

lemma extract_some (d : Doc) (r : Int)
    (h : extractReading (some d) = some r) :
    ∃ tr, d.total_risk = some tr ∧ tr.risk = some r := by
  cases hdt : d.total_risk with
  | none => simp [extractReading, hdt] at h
  | some tr =>
    refine ⟨tr, rfl, ?_⟩
    simpa [extractReading, hdt] using h

lemma step_fresh (s : MonitorState) (i : CycleInput) (r : Int)
    (h : extractReading i.fetch = some r) :
    (stepState s i).last_risk = some r := by
  cases hf : i.fetch with
  | none => rw [hf] at h; cases h
  | some d =>
    rw [hf] at h
    obtain ⟨tr, hdt, hrisk⟩ := extract_some d r h
    cases hls : s.last_risk with
    | none => simp [stepState, check_risk_job, hf, hdt, hrisk, hls]
    | some last =>
      by_cases he : r = last
      · subst he; simp [stepState, check_risk_job, hf, hdt, hrisk, hls]
      · simp [stepState, check_risk_job, hf, hdt, hrisk, hls, he]

lemma step_skip (s : MonitorState) (i : CycleInput)
    (h : extractReading i.fetch = none) : stepState s i = s := by
  cases hf : i.fetch with
  | none => simp [stepState, check_risk_job, hf]
  | some d =>
    rw [hf] at h
    cases hdt : d.total_risk with
    | none => simp [stepState, check_risk_job, hf, hdt]
    | some tr =>
      have hrisk : tr.risk = none := by
        simpa [extractReading, hdt] using h
      simp [stepState, check_risk_job, hf, hdt, hrisk]

lemma runTrace_lastOr (inputs : List CycleInput) :
    ∀ s : MonitorState,
      (runTrace s inputs).last_risk = lastOr (observedOf inputs) s.last_risk := by
  induction inputs with
  | nil => intro s; rfl
  | cons i is ih =>
    intro s
    have hrun : runTrace s (i :: is) = runTrace (stepState s i) is := rfl
    cases hx : extractReading i.fetch with
    | none =>
      have hobs : observedOf (i :: is) = observedOf is := by
        simp [observedOf, hx]
      rw [hrun, ih, hobs, step_skip s i hx]
    | some r =>
      have hobs : observedOf (i :: is) = r :: observedOf is := by
        simp [observedOf, hx]
      rw [hrun, ih, hobs, step_fresh s i r hx]
      rfl

/-- A document carrying only `total_risk.risk = r`. -/
def mkDoc (r : Int) : Doc :=
  ⟨some ⟨some r⟩, none, none, none, none, none⟩

/-- A document with every optional sub-object and detail present. -/
def docFull : Doc :=
  ⟨some ⟨some 55⟩, some ⟨some "pz"⟩, some ⟨some "pm"⟩, some ⟨some "fl"⟩,
    some ⟨some "tk"⟩, some ⟨some "wx"⟩⟩

/-- A document whose `total_risk` object lacks the `risk` sub-key. -/
def docNoRisk : Doc :=
  ⟨some ⟨none⟩, none, none, none, none, none⟩

/-! ### The claims -/

/-- C1: in every cycle whose fetched reading differs from the stored
baseline, exactly one notification is emitted, and its text contains the
current value, the previous value, the signed delta `current - last`, and
the upward marker when the reading rose, the downward marker when it
fell. -/
theorem c1_change_emits_one_notification (d : Doc) (sendOk : Bool)
    (s : MonitorState) (current last : Int)
    (hs : s.last_risk = some last)
    (hr : extractReading (some d) = some current)
    (hne : current ≠ last) :
    (check_risk_job (some d) sendOk s).attempts =
      [formatMessage current last d] ∧
    containsSub (formatMessage current last d) (toString current) = true ∧
    containsSub (formatMessage current last d) (toString last) = true ∧
    containsSub (formatMessage current last d)
      (pySigned (current - last)) = true ∧
    (current > last → containsSub (formatMessage current last d) "🔺" = true) ∧
    (current < last → containsSub (formatMessage current last d) "🔻" = true) := by
  obtain ⟨tr, hdt, hrisk⟩ := extract_some d current hr
  have hp := formatMessage_parts current last d
  refine ⟨?_, hp.1, hp.2.1, hp.2.2.1, hp.2.2.2.1, hp.2.2.2.2.1⟩
  simp [check_risk_job, hdt, hrisk, hs, hne]

/-- Witness for C1 at the concrete cycle baseline 40, reading 55. -/
theorem c1_change_emits_one_notification_witness :
    (check_risk_job (some (mkDoc 55)) true ⟨some 40⟩).attempts =
      [formatMessage 55 40 (mkDoc 55)] ∧
    containsSub (formatMessage 55 40 (mkDoc 55)) (toString (55 : Int)) = true ∧
    containsSub (formatMessage 55 40 (mkDoc 55)) (toString (40 : Int)) = true ∧
    containsSub (formatMessage 55 40 (mkDoc 55))
      (pySigned ((55 : Int) - 40)) = true ∧
    ((55 : Int) > 40 →
      containsSub (formatMessage 55 40 (mkDoc 55)) "🔺" = true) ∧
    ((55 : Int) < 40 →
      containsSub (formatMessage 55 40 (mkDoc 55)) "🔻" = true) :=
  c1_change_emits_one_notification (mkDoc 55) true ⟨some 40⟩ 55 40 rfl rfl
    (by decide)

/-- C2: while the baseline is unset, a successful fetch stores the reading
as the new baseline and sends no notification. -/
theorem c2_first_fetch_sets_baseline (f : Option Doc) (sendOk : Bool)
    (s : MonitorState) (r : Int)
    (hs : s.last_risk = none) (hr : extractReading f = some r) :
    check_risk_job f sendOk s = ⟨⟨some r⟩, [], [], false⟩ := by
  cases f with
  | none => cases hr
  | some d =>
    obtain ⟨tr, hdt, hrisk⟩ := extract_some d r hr
    simp [check_risk_job, hdt, hrisk, hs]

/-- Witness for C2 on the first fetch of reading 55. -/
theorem c2_first_fetch_sets_baseline_witness :
    check_risk_job (some (mkDoc 55)) true ⟨none⟩ =
      ⟨⟨some 55⟩, [], [], false⟩ :=
  c2_first_fetch_sets_baseline (some (mkDoc 55)) true ⟨none⟩ 55 rfl rfl

/-- C3: a reading equal to the stored baseline causes no notification and
leaves the state (and the whole outcome) unchanged. -/
theorem c3_equal_reading_no_action (d : Doc) (sendOk : Bool)
    (s : MonitorState) (r : Int)
    (hs : s.last_risk = some r) (hr : extractReading (some d) = some r) :
    check_risk_job (some d) sendOk s = ⟨s, [], [], false⟩ := by
  obtain ⟨tr, hdt, hrisk⟩ := extract_some d r hr
  simp [check_risk_job, hdt, hrisk, hs]

/-- Witness for C3 with baseline 55 and reading 55. -/
theorem c3_equal_reading_no_action_witness :
    check_risk_job (some (mkDoc 55)) true ⟨some 55⟩ =
      ⟨⟨some 55⟩, [], [], false⟩ :=
  c3_equal_reading_no_action (mkDoc 55) true ⟨some 55⟩ 55 rfl rfl

/-- C4: whenever the cycle obtains no reading — fetch returned `None`
(network error, timeout, parse error), the document lacks `total_risk`,
or `total_risk` lacks `risk` — the state is unchanged and zero
notifications are attempted or delivered. -/
theorem c4_fetch_failure_skips_cycle (f : Option Doc) (sendOk : Bool)
    (s : MonitorState) (h : extractReading f = none) :
    (check_risk_job f sendOk s).state = s ∧
    (check_risk_job f sendOk s).attempts = [] ∧
    (check_risk_job f sendOk s).delivered = [] := by
  cases hf : f with
  | none => simp [check_risk_job]
  | some d =>
    rw [hf] at h
    cases hdt : d.total_risk with
    | none => simp [check_risk_job, hdt]
    | some tr =>
      have hrisk : tr.risk = none := by
        simpa [extractReading, hdt] using h
      simp [check_risk_job, hdt, hrisk]

/-- Witness for C4 on a failed fetch (`None`). -/
theorem c4_fetch_failure_skips_cycle_witness :
    (check_risk_job none true ⟨some 40⟩).state = ⟨some 40⟩ ∧
    (check_risk_job none true ⟨some 40⟩).attempts = [] ∧
    (check_risk_job none true ⟨some 40⟩).delivered = [] :=
  c4_fetch_failure_skips_cycle none true ⟨some 40⟩ rfl

/-- C5: when the reading changed and the send fails, the failure is
swallowed (no exception escapes the job body), the message send was
attempted but nothing was delivered, and the baseline is still updated to
the new reading. -/
theorem c5_send_failure_swallowed (d : Doc) (s : MonitorState)
    (current last : Int)
    (hs : s.last_risk = some last)
    (hr : extractReading (some d) = some current)
    (hne : current ≠ last) :
    check_risk_job (some d) false s =
      ⟨⟨some current⟩, [formatMessage current last d], [], false⟩ := by
  obtain ⟨tr, hdt, hrisk⟩ := extract_some d current hr
  simp [check_risk_job, hdt, hrisk, hs, hne]

/-- Witness for C5 with baseline 40, reading 55, failing send. -/
theorem c5_send_failure_swallowed_witness :
    check_risk_job (some (mkDoc 55)) false ⟨some 40⟩ =
      ⟨⟨some 55⟩, [formatMessage 55 40 (mkDoc 55)], [], false⟩ :=
  c5_send_failure_swallowed (mkDoc 55) ⟨some 40⟩ 55 40 rfl rfl (by decide)

/-- C6: `last_risk` is never stale.  Any cycle that observes a reading
leaves exactly that reading stored, and along any trace started with no
baseline, the stored value is the most recently observed reading (or
still unset when no reading was ever observed). -/
theorem c6_last_reading_never_stale :
    (∀ (f : Option Doc) (b : Bool) (s : MonitorState) (r : Int),
        extractReading f = some r →
        (check_risk_job f b s).state.last_risk = some r) ∧
    (∀ inputs : List CycleInput,
        (runTrace ⟨none⟩ inputs).last_risk = lastOr (observedOf inputs) none) := by
  constructor
  · intro f b s r h
    exact step_fresh s ⟨f, b⟩ r h
  · intro inputs
    exact runTrace_lastOr inputs ⟨none⟩

/-- Witness for C6 at a concrete cycle and a concrete one-cycle trace. -/
theorem c6_last_reading_never_stale_witness :
    (check_risk_job (some (mkDoc 55)) true ⟨some 40⟩).state.last_risk =
      some 55 ∧
    (runTrace ⟨none⟩ [⟨some (mkDoc 55), true⟩]).last_risk =
      lastOr (observedOf [⟨some (mkDoc 55), true⟩]) none :=
  ⟨c6_last_reading_never_stale.1 (some (mkDoc 55)) true ⟨some 40⟩ 55 rfl,
   c6_last_reading_never_stale.2 [⟨some (mkDoc 55), true⟩]⟩

/-- C7: the formatted message contains the current value, the previous
value, the signed delta, a directional indicator, and, for every optional
sub-object present in the document with a detail field, that detail
text. -/
theorem c7_message_contents (current last : Int) (d : Doc) :
    containsSub (formatMessage current last d) (toString current) = true ∧
    containsSub (formatMessage current last d) (toString last) = true ∧
    containsSub (formatMessage current last d)
      (pySigned (current - last)) = true ∧
    containsSub (formatMessage current last d)
      (if current > last then "🔺" else "🔻") = true ∧
    (∀ o t, d.pentagon = some o → o.detail = some t →
        containsSub (formatMessage current last d) t = true) ∧
    (∀ o t, d.polymarket = some o → o.detail = some t →
        containsSub (formatMessage current last d) t = true) ∧
    (∀ o t, d.flight = some o → o.detail = some t →
        containsSub (formatMessage current last d) t = true) ∧
    (∀ o t, d.tankers = some o → o.detail = some t →
        containsSub (formatMessage current last d) t = true) ∧
    (∀ o t, d.weather = some o → o.detail = some t →
        containsSub (formatMessage current last d) t = true) := by
  have hp := formatMessage_parts current last d
  refine ⟨hp.1, hp.2.1, hp.2.2.1, ?_, ?_, ?_, ?_, ?_, ?_⟩
  · unfold formatMessage
    repeat (first | exact containsSub_found _ _ | apply containsSub_of_right)
  · intro o t ho ht
    have h := hp.2.2.2.2.2.1
    rwa [ho, show detailOf (some o) = t by simp [detailOf, ht]] at h
  · intro o t ho ht
    have h := hp.2.2.2.2.2.2.1
    rwa [ho, show detailOf (some o) = t by simp [detailOf, ht]] at h
  · intro o t ho ht
    have h := hp.2.2.2.2.2.2.2.1
    rwa [ho, show detailOf (some o) = t by simp [detailOf, ht]] at h
  · intro o t ho ht
    have h := hp.2.2.2.2.2.2.2.2.1
    rwa [ho, show detailOf (some o) = t by simp [detailOf, ht]] at h
  · intro o t ho ht
    have h := hp.2.2.2.2.2.2.2.2.2
    rwa [ho, show detailOf (some o) = t by simp [detailOf, ht]] at h

/-- Witness for C7 on a document carrying all five detail sub-objects. -/
theorem c7_message_contents_witness :
    containsSub (formatMessage 55 40 docFull) (toString (55 : Int)) = true ∧
    containsSub (formatMessage 55 40 docFull) (toString (40 : Int)) = true ∧
    containsSub (formatMessage 55 40 docFull)
      (pySigned ((55 : Int) - 40)) = true ∧
    containsSub (formatMessage 55 40 docFull)
      (if (55 : Int) > 40 then "🔺" else "🔻") = true ∧
    containsSub (formatMessage 55 40 docFull) "pz" = true ∧
    containsSub (formatMessage 55 40 docFull) "pm" = true ∧
    containsSub (formatMessage 55 40 docFull) "fl" = true ∧
    containsSub (formatMessage 55 40 docFull) "tk" = true ∧
    containsSub (formatMessage 55 40 docFull) "wx" = true := by
  have h := c7_message_contents 55 40 docFull
  exact ⟨h.1, h.2.1, h.2.2.1, h.2.2.2.1,
    h.2.2.2.2.1 ⟨some "pz"⟩ "pz" rfl rfl,
    h.2.2.2.2.2.1 ⟨some "pm"⟩ "pm" rfl rfl,
    h.2.2.2.2.2.2.1 ⟨some "fl"⟩ "fl" rfl rfl,
    h.2.2.2.2.2.2.2.1 ⟨some "tk"⟩ "tk" rfl rfl,
    h.2.2.2.2.2.2.2.2 ⟨some "wx"⟩ "wx" rfl rfl⟩

set_option maxRecDepth 20000 in
/-- C8: the concrete trace baseline 40, then readings 55, 55, 30: the
first cycle emits one message containing 55, 40, +15 and the upward
marker; the second cycle emits nothing; the third emits one message
containing -25 and the downward marker. -/
theorem c8_example_trace :
    (check_risk_job (some (mkDoc 55)) true ⟨some 40⟩).attempts =
      [formatMessage 55 40 (mkDoc 55)] ∧
    containsSub (formatMessage 55 40 (mkDoc 55)) "55" = true ∧
    containsSub (formatMessage 55 40 (mkDoc 55)) "40" = true ∧
    containsSub (formatMessage 55 40 (mkDoc 55)) "+15" = true ∧
    containsSub (formatMessage 55 40 (mkDoc 55)) "🔺" = true ∧
    (check_risk_job (some (mkDoc 55)) true
      (check_risk_job (some (mkDoc 55)) true ⟨some 40⟩).state).attempts =
      [] ∧
    (check_risk_job (some (mkDoc 30)) true
      (check_risk_job (some (mkDoc 55)) true
        (check_risk_job (some (mkDoc 55)) true ⟨some 40⟩).state).state).attempts =
      [formatMessage 30 55 (mkDoc 30)] ∧
    containsSub (formatMessage 30 55 (mkDoc 30)) "-25" = true ∧
    containsSub (formatMessage 30 55 (mkDoc 30)) "🔻" = true := by
  decide

/-- C9: once a baseline is stored, no later cycle ever resets
`last_risk` to the unset state. -/
theorem c9_baseline_never_unset (inputs : List CycleInput) :
    ∀ s : MonitorState, s.last_risk.isSome = true →
      ((runTrace s inputs).last_risk).isSome = true := by
  induction inputs with
  | nil => intro s h; exact h
  | cons i is ih =>
    intro s h
    have hstep : ((stepState s i).last_risk).isSome = true := by
      cases hx : extractReading i.fetch with
      | none => rw [step_skip s i hx]; exact h
      | some r => rw [step_fresh s i r hx]; rfl
    exact ih (stepState s i) hstep

/-- Witness for C9 on a two-cycle trace from baseline 40. -/
theorem c9_baseline_never_unset_witness :
    ((⟨some 40⟩ : MonitorState).last_risk).isSome = true ∧
    ((runTrace ⟨some 40⟩
      [⟨none, true⟩, ⟨some (mkDoc 55), false⟩]).last_risk).isSome = true :=
  ⟨rfl, c9_baseline_never_unset [⟨none, true⟩, ⟨some (mkDoc 55), false⟩]
    ⟨some 40⟩ rfl⟩

/-- C10: a truthy document with a `total_risk` object lacking the `risk`
sub-key makes the job body raise an uncaught exception, while the state
is unchanged and no send is attempted. -/
theorem c10_missing_risk_key_raises (d : Doc) (tr : TotalRisk)
    (sendOk : Bool) (s : MonitorState)
    (hdt : d.total_risk = some tr) (hrisk : tr.risk = none) :
    check_risk_job (some d) sendOk s = ⟨s, [], [], true⟩ := by
  simp [check_risk_job, hdt, hrisk]

/-- Witness for C10 on the concrete risk-less document. -/
theorem c10_missing_risk_key_raises_witness :
    check_risk_job (some docNoRisk) true ⟨some 40⟩ =
      ⟨⟨some 40⟩, [], [], true⟩ :=
  c10_missing_risk_key_raises docNoRisk ⟨none⟩ true ⟨some 40⟩ rfl rfl
